import Mathlib

/-!
Shallow embedding of the data-validation core of the networksecuritysystem
repository (src/networksecurity/components/data_validation.py), together with
theorems settling the specification claims about it.

Conventions of the embedding:
* pandas DataFrames are ordered lists of named, dtyped columns with rational
  cell values (p-values and thresholds are rationals standing for the finite
  IEEE doubles the code compares with plain `<=`).
* File I/O is explicit state passing over an association-list file system.
* Python exceptions become `Except`; the repository's domain exception
  `NetworkSecurityException` wraps either a raw error or another domain
  exception, as the nested try/except blocks do.
* scipy.stats.ks_2samp is an external library: it is abstracted as a function
  from the two column samples to the p-value of the test.
-/

namespace NetworkSecurity

/-- pandas column dtypes, as far as `select_dtypes(include=['number'])` cares:
`int64` and `float64` are numeric, `object` is not. -/
inductive Dtype where
  | int64
  | float64
  | object
deriving DecidableEq, Repr

/-- Whether pandas considers the dtype numeric. -/
def Dtype.isNumeric : Dtype → Bool
  | .int64 => true
  | .float64 => true
  | .object => false

/-- An in-memory pandas DataFrame: ordered named columns, each with a dtype and
a list of cell values. -/
structure DataFrame where
  cols : List (String × Dtype × List ℚ)
deriving DecidableEq, Repr

/-- `df.columns`: the ordered list of column names. -/
def DataFrame.columns (df : DataFrame) : List String := df.cols.map (·.1)

/-- `df[c]`: the values of the first column named `c`; `none` models the
KeyError raised when no such column exists. -/
def DataFrame.getCol (df : DataFrame) (c : String) : Option (List ℚ) :=
  (df.cols.find? (fun kv => kv.1 == c)).map (fun kv => kv.2.2)

/-- `df.select_dtypes(include=['number']).columns`: names of the numerically
typed columns. -/
def DataFrame.numericColumns (df : DataFrame) : List String :=
  (df.cols.filter (fun kv => kv.2.1.isNumeric)).map (·.1)

/-- Modelled from the spec: a top-level value of the schema YAML mapping
(the schema file itself is not under src/). Per the spec it holds either the
list of column definitions (name and declared type) or a list of column
names. -/
inductive SchemaValue where
  | columnDefs (defs : List (String × Dtype))
  | nameList (names : List String)
deriving DecidableEq, Repr

/-- Modelled from the spec: the parsed schema configuration file
(`read_yaml_file(SCHEMA_FILE_PATH)`, stored as `self._schema_config`). The
spec describes it as a mapping containing at minimum a list of column
definitions and a list of numerical column names; we model the parsed YAML
mapping as its ordered list of top-level key/value pairs. -/
structure SchemaConfig where
  entries : List (String × SchemaValue)
deriving DecidableEq, Repr

/-- Python `len(self._schema_config)` on a parsed YAML mapping: the number of
top-level keys. -/
def SchemaConfig.pyLen (s : SchemaConfig) : Nat := s.entries.length

/-- Lookup of a top-level key in the schema mapping. -/
def SchemaConfig.lookup (s : SchemaConfig) (k : String) : Option SchemaValue :=
  (s.entries.find? (fun kv => kv.1 == k)).map (·.2)

/-- Python `self._schema_config.get("numerical_columns", [])`: the declared
numerical column names, defaulting to the empty list. -/
def SchemaConfig.numerical_columns (s : SchemaConfig) : List String :=
  match s.lookup "numerical_columns" with
  | some (.nameList names) => names
  | _ => []

/-- Modelled from the spec: the schema's derived `total_column_count`, the
length of the schema's full column list (held under the key "columns"). -/
def SchemaConfig.total_column_count (s : SchemaConfig) : Nat :=
  match s.lookup "columns" with
  | some (.columnDefs defs) => defs.length
  | _ => 0

/-- Raw Python or library exceptions arising inside the validation core. -/
inductive PyError where
  | fileNotFound (path : String)
  | keyError (key : String)
deriving DecidableEq, Repr

/-- Modelled from the spec: the single domain exception
`NetworkSecurityException(e, sys)` (its class, in
networksecurity/exception/exception.py, is not under src/). Each try/except
block wraps whatever exception it caught, so the cause is either a raw error
or an already-wrapped domain exception. -/
inductive NetworkSecurityException where
  | ofPy (cause : PyError)
  | ofNS (cause : NetworkSecurityException)
deriving DecidableEq, Repr

/-- The original raw error at the bottom of a chain of wrappings. -/
def NetworkSecurityException.rootCause : NetworkSecurityException → PyError
  | .ofPy e => e
  | .ofNS e => e.rootCause

/-- One entry of the drift report: the column's p-value and drift flag. -/
structure DriftEntry where
  p_value : ℚ
  drift_status : Bool
deriving DecidableEq, Repr

/-- Contents of a file on disk: a CSV-serialized dataframe or a
YAML-serialized drift report. -/
inductive FileContent where
  | csv (df : DataFrame)
  | yaml (report : List (String × DriftEntry))
deriving DecidableEq, Repr

/-- The file system: an association list from path to content. -/
structure FileSystem where
  files : List (String × FileContent)
deriving DecidableEq, Repr

/-- Reading the file at a path, if present. -/
def FileSystem.read (fs : FileSystem) (path : String) : Option FileContent :=
  (fs.files.find? (fun kv => kv.1 == path)).map (·.2)

/-- Writing a file: overwrite the existing entry or append a new one. -/
def FileSystem.write (fs : FileSystem) (path : String) (c : FileContent) :
    FileSystem :=
  if fs.files.any (fun kv => kv.1 == path) then
    ⟨fs.files.map (fun kv => if kv.1 == path then (path, c) else kv)⟩
  else
    ⟨fs.files ++ [(path, c)]⟩

/-- Modelled from the spec: the upstream `DataIngestionArtifact` (its class is
not under src/), exposing the paths of the ingested train and test files. -/
structure DataIngestionArtifact where
  trained_file_path : String
  test_file_path : String
deriving DecidableEq, Repr

/-- Modelled from the spec: the `DataValidationConfig` value object (its class
is not under src/), supplying the output file paths. -/
structure DataValidationConfig where
  drift_report_file_path : String
  valid_train_file_path : String
  valid_test_file_path : String
deriving DecidableEq, Repr

/-- Modelled from the spec: the `DataValidationArtifact` record (its class is
not under src/). Python is dynamically typed, so each field simply holds
whatever value the constructor call passes; in particular the source passes
`None` for the invalid paths, and (via the drift detector's return value)
possibly `None` for `validation_status`, hence the `Option` types. -/
structure DataValidationArtifact where
  validation_status : Option Bool
  valid_train_file_path : Option String
  valid_test_file_path : Option String
  invalid_train_file_path : Option String
  invalid_test_file_path : Option String
  drift_report_file_path : String
deriving DecidableEq, Repr

/-- The two-sample Kolmogorov-Smirnov test `scipy.stats.ks_2samp`, abstracted
as a function from the two column samples to the test's p-value
(`ks_2samp(d1, d2).pvalue`). -/
abbrev KSTest := List ℚ → List ℚ → ℚ

namespace DataValidation

/-- `DataValidation.read_data`: `pd.read_csv(file_path)` with any failure
re-raised as `NetworkSecurityException(e, sys)`. Reading fails when the path
is absent or does not hold a CSV file. -/
def read_data (fs : FileSystem) (file_path : String) :
    Except NetworkSecurityException DataFrame :=
  match fs.read file_path with
  | some (.csv df) => .ok df
  | _ => .error (.ofPy (.fileNotFound file_path))

/-- `validate_number_of_columns`: compares `len(dataframe.columns)` with
`number_of_columns = len(self._schema_config)`, the number of top-level keys
of the parsed schema mapping. -/
def validate_number_of_columns (schema : SchemaConfig) (dataframe : DataFrame) :
    Bool :=
  let number_of_columns := schema.pyLen
  if dataframe.columns.length == number_of_columns then true else false

/-- Python semantics of `missing_columns == 0` where `missing_columns` is a
set and `0` an int: `set.__eq__(int)` returns NotImplemented, the reflected
`int.__eq__(set)` likewise, and the fallback is identity comparison of
distinct objects — so the comparison is False for every set, empty or not. -/
def pySetEqIntZero (_missing : List String) : Bool := false

/-- `validate_numerical_columns`: builds the set difference
`set(expected_numerical_columns) - set(actual_numerical_columns)` and returns
true iff `missing_columns == 0` (a set-vs-int comparison, see
`pySetEqIntZero`). -/
def validate_numerical_columns (schema : SchemaConfig) (dataframe : DataFrame) :
    Bool :=
  let expected_numerical_columns := schema.numerical_columns
  let actual_numerical_columns := dataframe.numericColumns
  let missing_columns :=
    expected_numerical_columns.filter
      (fun c => !(actual_numerical_columns.contains c))
  if pySetEqIntZero missing_columns then true else false

/-- Python `report.update({column: entry})`: replace the entry of an existing
key in place, otherwise append the new key (dict insertion order). -/
def dictUpdate (report : List (String × DriftEntry)) (k : String)
    (v : DriftEntry) : List (String × DriftEntry) :=
  if report.any (fun kv => kv.1 == k) then
    report.map (fun kv => if kv.1 == k then (k, v) else kv)
  else
    report ++ [(k, v)]

/-- The per-column loop of `detect_dataset_drift`: for each column of the base
frame, extract both samples (KeyError if the current frame lacks the column),
run the KS test, flag drift when `threshold <= p_value` fails, clear the
overall status on any flagged column, and update the report dict. -/
def driftLoop (ks : KSTest) (threshold : ℚ) (base current : DataFrame) :
    List String → Bool → List (String × DriftEntry) →
      Except PyError (Bool × List (String × DriftEntry))
  | [], status, report => .ok (status, report)
  | column :: rest, status, report =>
    match base.getCol column, current.getCol column with
    | some d1, some d2 =>
      if threshold ≤ ks d1 d2 then
        driftLoop ks threshold base current rest status
          (dictUpdate report column ⟨ks d1 d2, false⟩)
      else
        driftLoop ks threshold base current rest false
          (dictUpdate report column ⟨ks d1 d2, true⟩)
    | _, _ => .error (.keyError column)

/-- The drift computation performed by `detect_dataset_drift` before the
report is written out: overall status (initially True) and report (initially
empty) accumulated over `base_df.columns`. -/
def driftCompute (ks : KSTest) (threshold : ℚ) (base_df current_df : DataFrame) :
    Except PyError (Bool × List (String × DriftEntry)) :=
  driftLoop ks threshold base_df current_df base_df.columns true []

/-- `detect_dataset_drift(base_df, current_df, threshold=0.05)`: runs the
drift computation and writes the report to the configured path. The source
function has no return statement, so — its `-> bool` annotation
notwithstanding — Python returns `None`; the returned value is therefore
`none : Option Bool`. Errors are wrapped in `NetworkSecurityException`. -/
def detect_dataset_drift (ks : KSTest) (config : DataValidationConfig)
    (fs : FileSystem) (base_df current_df : DataFrame)
    (threshold : ℚ := Rat.divInt 5 100) :
    Except NetworkSecurityException (FileSystem × Option Bool) :=
  match driftCompute ks threshold base_df current_df with
  | .error e => .error (.ofPy e)
  | .ok (_status, report) =>
    .ok (fs.write config.drift_report_file_path (.yaml report), none)

/-- The try-block body of `initiate_data_validation`: read both datasets,
run the four structural checks (each result is bound to `status` and used
only to build an `error_message` string that the source never logs or
raises), run drift detection (whose returned value — `None` — becomes the
final `status`), write the two dataframes unchanged to the configured valid
paths, and build the artifact. -/
def initiate_body (ks : KSTest) (schema : SchemaConfig)
    (ingestion : DataIngestionArtifact) (config : DataValidationConfig)
    (fs : FileSystem) :
    Except NetworkSecurityException (FileSystem × DataValidationArtifact) :=
  match read_data fs ingestion.trained_file_path with
  | .error e => .error e
  | .ok train_dataframe =>
    match read_data fs ingestion.test_file_path with
    | .error e => .error e
    | .ok test_dataframe =>
      let _statusTrainCols := validate_number_of_columns schema train_dataframe
      let _statusTestCols := validate_number_of_columns schema test_dataframe
      let _statusTrainNum := validate_numerical_columns schema train_dataframe
      let _statusTestNum := validate_numerical_columns schema test_dataframe
      match detect_dataset_drift ks config fs train_dataframe test_dataframe with
      | .error e => .error e
      | .ok (fs1, status) =>
        let fs2 := fs1.write config.valid_train_file_path (.csv train_dataframe)
        let fs3 := fs2.write config.valid_test_file_path (.csv test_dataframe)
        .ok (fs3,
          { validation_status := status
            valid_train_file_path := some ingestion.trained_file_path
            valid_test_file_path := some ingestion.test_file_path
            invalid_train_file_path := none
            invalid_test_file_path := none
            drift_report_file_path := config.drift_report_file_path })

/-- `initiate_data_validation() -> DataValidationArtifact`: the body above,
with the enclosing try/except re-wrapping any escaping exception in
`NetworkSecurityException(e, sys)`. -/
def initiate_data_validation (ks : KSTest) (schema : SchemaConfig)
    (ingestion : DataIngestionArtifact) (config : DataValidationConfig)
    (fs : FileSystem) :
    Except NetworkSecurityException (FileSystem × DataValidationArtifact) :=
  match initiate_body ks schema ingestion config fs with
  | .ok r => .ok r
  | .error e => .error (.ofNS e)

/-- The entry that the drift loop computes for a column: the KS p-value of the
two samples and the flag `p_value < threshold`; `none` when either frame
lacks the column. -/
def colEntry (ks : KSTest) (threshold : ℚ) (base current : DataFrame)
    (c : String) : Option DriftEntry :=
  (base.getCol c).bind fun d1 =>
    (current.getCol c).bind fun d2 =>
      some ⟨ks d1 d2, decide (ks d1 d2 < threshold)⟩

/-- Whether a column keeps the overall status intact: true when its computed
entry carries no drift flag (vacuously true when the entry is undefined). -/
def noDriftFlag (ks : KSTest) (threshold : ℚ) (base current : DataFrame)
    (c : String) : Bool :=
  ((colEntry ks threshold base current c).map
    (fun e => !e.drift_status)).getD true

end DataValidation

/-! Concrete fixtures used to exercise the embedded functions. -/

/-- A two-column base dataframe. -/
def trainDf : DataFrame :=
  ⟨[("a", Dtype.float64, [0, 1]), ("b", Dtype.int64, [2, 3])]⟩

/-- A two-column current dataframe sharing the base's columns, with column
"a" shifted. -/
def testDf : DataFrame :=
  ⟨[("a", Dtype.float64, [5, 6]), ("b", Dtype.int64, [2, 3])]⟩

/-- A KS-test stub: p-value 1 on identical samples, 1/1000 otherwise. -/
def ksSame : KSTest := fun d1 d2 => if d1 == d2 then 1 else Rat.divInt 1 1000

/-- A schema mapping with the two spec-required keys, declaring the two
columns of `trainDf`, both numerical. -/
def sampleSchema : SchemaConfig :=
  ⟨[("columns", SchemaValue.columnDefs [("a", Dtype.float64), ("b", Dtype.int64)]),
    ("numerical_columns", SchemaValue.nameList ["a", "b"])]⟩

/-- A schema mapping with a third top-level key, so that a two-column
dataframe fails the column-count check. -/
def schemaThree : SchemaConfig :=
  ⟨[("columns", SchemaValue.columnDefs [("a", Dtype.float64), ("b", Dtype.int64)]),
    ("numerical_columns", SchemaValue.nameList ["a", "b"]),
    ("target", SchemaValue.nameList ["b"])]⟩

/-- A schema mapping declaring 31 columns (and no numerical ones), with the
two spec-required top-level keys. -/
def schema31 : SchemaConfig :=
  ⟨[("columns", SchemaValue.columnDefs
      ((List.range 31).map (fun i => (toString i, Dtype.int64)))),
    ("numerical_columns", SchemaValue.nameList [])]⟩

/-- A dataframe with 31 integer columns named "0" .. "30". -/
def df31 : DataFrame :=
  ⟨(List.range 31).map (fun i => (toString i, Dtype.int64, ([0] : List ℚ)))⟩

/-- The upstream ingestion artifact pointing at the two input files. -/
def sampleIngestion : DataIngestionArtifact := ⟨"in_train.csv", "in_test.csv"⟩

/-- The validation configuration with three distinct output paths. -/
def sampleConfig : DataValidationConfig :=
  ⟨"report.yaml", "valid_train.csv", "valid_test.csv"⟩

/-- A file system holding the two input CSVs. -/
def sampleFs : FileSystem :=
  ⟨[("in_train.csv", FileContent.csv trainDf),
    ("in_test.csv", FileContent.csv testDf)]⟩

/-- A file system in which train and test are the same dataframe, so the KS
stub reports no drift on any column. -/
def fsIdentical : FileSystem :=
  ⟨[("in_train.csv", FileContent.csv trainDf),
    ("in_test.csv", FileContent.csv trainDf)]⟩

/-- A placeholder artifact, used only as the default of `Option.getD`. -/
def emptyArtifact : DataValidationArtifact := ⟨none, none, none, none, none, ""⟩

/-- The state and artifact produced by the sample run of
`initiate_data_validation` on the fixtures above. -/
def runPair : FileSystem × DataValidationArtifact :=
  ((DataValidation.initiate_data_validation ksSame sampleSchema
      sampleIngestion sampleConfig sampleFs).toOption).getD (⟨[]⟩, emptyArtifact)

/-! Helper lemmas about the file-system model. -/

/-- After overwriting the entries keyed `p` in place, lookup of `p` finds the
new value. -/
theorem find_map_overwrite (l : List (String × FileContent)) (p : String)
    (c : FileContent) (h : l.any (fun kv => kv.1 == p) = true) :
    (l.map (fun kv => if kv.1 == p then (p, c) else kv)).find?
      (fun kv => kv.1 == p) = some (p, c) := by
  induction l with
  | nil => simp at h
  | cons kv rest ih =>
    rw [List.map_cons]
    by_cases hk : kv.1 = p
    · have hhead : (if (kv.1 == p) = true then (p, c) else kv) = (p, c) := by
        simp [hk]
      rw [hhead, List.find?_cons_of_pos _ (by simp)]
    · have hhead : (if (kv.1 == p) = true then (p, c) else kv) = kv := by
        simp [hk]
      have hrest : rest.any (fun kv => kv.1 == p) = true := by
        have hk' : (kv.1 == p) = false := by simp [hk]
        simpa [List.any_cons, hk'] using h
      rw [hhead, List.find?_cons_of_neg _ (by simp [hk])]
      exact ih hrest

/-- Appending a fresh entry keyed `p` to a list without that key makes lookup
of `p` find it. -/
theorem find_append_new (l : List (String × FileContent)) (p : String)
    (c : FileContent) (h : l.any (fun kv => kv.1 == p) = false) :
    (l ++ [(p, c)]).find? (fun kv => kv.1 == p) = some (p, c) := by
  induction l with
  | nil =>
    rw [List.nil_append, List.find?_cons_of_pos _ (by simp)]
  | cons kv rest ih =>
    simp only [List.any_cons, Bool.or_eq_false_iff] at h
    rw [List.cons_append, List.find?_cons_of_neg _ (by simp [h.1])]
    exact ih h.2

/-- Overwriting the entries keyed `p` does not change lookup of `q ≠ p`. -/
theorem find_map_overwrite_ne (l : List (String × FileContent)) (p q : String)
    (c : FileContent) (hne : q ≠ p) :
    (l.map (fun kv => if kv.1 == p then (p, c) else kv)).find?
      (fun kv => kv.1 == q) = l.find? (fun kv => kv.1 == q) := by
  induction l with
  | nil => simp
  | cons kv rest ih =>
    rw [List.map_cons]
    by_cases hk : kv.1 = p
    · have hhead : (if (kv.1 == p) = true then (p, c) else kv) = (p, c) := by
        simp [hk]
      have hkq : ¬((kv.1 == q) = true) := by
        simp [hk]
        exact Ne.symm hne
      rw [hhead, List.find?_cons_of_neg (List.map _ rest)
          (by simp; exact Ne.symm hne),
        List.find?_cons_of_neg rest hkq]
      exact ih
    · have hhead : (if (kv.1 == p) = true then (p, c) else kv) = kv := by
        simp [hk]
      rw [hhead]
      by_cases hq : kv.1 = q
      · rw [List.find?_cons_of_pos _ (by simp [hq]),
          List.find?_cons_of_pos _ (by simp [hq])]
      · rw [List.find?_cons_of_neg _ (by simp [hq]),
          List.find?_cons_of_neg _ (by simp [hq])]
        exact ih

/-- Appending an entry keyed `p` does not change lookup of `q ≠ p`. -/
theorem find_append_ne (l : List (String × FileContent)) (p q : String)
    (c : FileContent) (hne : q ≠ p) :
    (l ++ [(p, c)]).find? (fun kv => kv.1 == q) =
      l.find? (fun kv => kv.1 == q) := by
  induction l with
  | nil =>
    rw [List.nil_append, List.find?_cons_of_neg _ (by simp; exact Ne.symm hne)]
  | cons kv rest ih =>
    by_cases hq : kv.1 = q
    · rw [List.cons_append, List.find?_cons_of_pos _ (by simp [hq]),
        List.find?_cons_of_pos _ (by simp [hq])]
    · rw [List.cons_append, List.find?_cons_of_neg _ (by simp [hq]),
        List.find?_cons_of_neg _ (by simp [hq])]
      exact ih

/-- Reading back the path just written yields the written content. -/
theorem read_write_self (fs : FileSystem) (p : String) (c : FileContent) :
    (fs.write p c).read p = some c := by
  unfold FileSystem.write FileSystem.read
  by_cases h : fs.files.any (fun kv => kv.1 == p) = true
  · rw [if_pos h]
    dsimp only
    rw [find_map_overwrite fs.files p c h]
    rfl
  · rw [if_neg h]
    dsimp only
    rw [find_append_new fs.files p c (Bool.eq_false_iff.mpr h)]
    rfl

/-- Writing one path does not change what is read at another. -/
theorem read_write_ne (fs : FileSystem) (p q : String) (c : FileContent)
    (hne : q ≠ p) : (fs.write p c).read q = fs.read q := by
  unfold FileSystem.write FileSystem.read
  by_cases h : fs.files.any (fun kv => kv.1 == p) = true
  · rw [if_pos h]
    dsimp only
    rw [find_map_overwrite_ne fs.files p q c hne]
  · rw [if_neg h]
    dsimp only
    rw [find_append_ne fs.files p q c hne]

/-! Helper lemmas about the drift report dictionary and the drift loop. -/

namespace DataValidation

/-- Every pair of an updated report is an old pair or the inserted one. -/
theorem mem_dictUpdate {report : List (String × DriftEntry)} {k : String}
    {v : DriftEntry} {ce : String × DriftEntry}
    (h : ce ∈ dictUpdate report k v) : ce ∈ report ∨ ce = (k, v) := by
  unfold dictUpdate at h
  split at h
  · obtain ⟨kv, hkv, heq⟩ := List.mem_map.mp h
    by_cases hk : kv.1 = k
    · right
      rw [if_pos (by simp [hk])] at heq
      exact heq.symm
    · left
      rw [if_neg (by simp [hk])] at heq
      exact heq ▸ hkv
  · rcases List.mem_append.mp h with h1 | h1
    · exact Or.inl h1
    · exact Or.inr (by simpa using h1)

/-- Key membership after a dict update: the inserted key, or an old key. -/
theorem mem_keys_dictUpdate {report : List (String × DriftEntry)} {k : String}
    {v : DriftEntry} (c : String) :
    c ∈ (dictUpdate report k v).map Prod.fst ↔
      c = k ∨ c ∈ report.map Prod.fst := by
  unfold dictUpdate
  split
  case isTrue hany =>
    rw [List.map_map]
    constructor
    · intro hc
      obtain ⟨kv, hkv, heq⟩ := List.mem_map.mp hc
      by_cases hk : kv.1 = k
      · left
        rw [show (Prod.fst ∘ fun kv : String × DriftEntry =>
            if (kv.1 == k) = true then (k, v) else kv) kv = k by simp [hk]] at heq
        exact heq.symm
      · right
        rw [show (Prod.fst ∘ fun kv : String × DriftEntry =>
            if (kv.1 == k) = true then (k, v) else kv) kv = kv.1 by
          simp [hk]] at heq
        exact List.mem_map.mpr ⟨kv, hkv, heq⟩
    · intro hc
      rcases hc with hck | hc
      · obtain ⟨kv0, hkv0, hkey⟩ := List.any_eq_true.mp hany
        refine List.mem_map.mpr ⟨kv0, hkv0, ?_⟩
        simp only [Function.comp_apply, hkey, if_pos]
        exact hck.symm
      · obtain ⟨kv, hkv, hfst⟩ := List.mem_map.mp hc
        refine List.mem_map.mpr ⟨kv, hkv, ?_⟩
        by_cases hk : kv.1 = k
        · simp only [Function.comp_apply]
          rw [if_pos (show (kv.1 == k) = true by simp [hk]), ← hk]
          exact hfst
        · simp only [Function.comp_apply]
          rw [if_neg (by simp [hk])]
          exact hfst
  case isFalse hany =>
    rw [List.map_append]
    simp only [List.mem_append, List.map_cons, List.map_nil,
      List.mem_singleton]
    exact or_comm

/-- The per-column entry when both frames have the column. -/
theorem colEntry_eq_some {ks : KSTest} {t : ℚ} {base current : DataFrame}
    {c : String} {d1 d2 : List ℚ} (hb : base.getCol c = some d1)
    (hc : current.getCol c = some d2) :
    colEntry ks t base current c = some ⟨ks d1 d2, decide (ks d1 d2 < t)⟩ := by
  unfold colEntry
  rw [hb, hc]
  rfl

/-- Any computed column entry flags drift exactly when its p-value is below
the threshold. -/
theorem colEntry_drift_char {ks : KSTest} {t : ℚ} {base current : DataFrame}
    {c : String} {e : DriftEntry}
    (h : colEntry ks t base current c = some e) :
    e.drift_status = decide (e.p_value < t) := by
  unfold colEntry at h
  rcases hb : base.getCol c with _ | d1
  · rw [hb] at h
    simp at h
  rcases hc : current.getCol c with _ | d2
  · rw [hb, hc] at h
    simp at h
  rw [hb, hc] at h
  simp only [Option.some_bind, Option.some.injEq] at h
  rw [← h]

/-- The p-value of a column's entry does not depend on the threshold. -/
theorem colEntry_pvalue_eq {ks : KSTest} {t t' : ℚ} {base current : DataFrame}
    {c : String} {e e' : DriftEntry}
    (h : colEntry ks t base current c = some e)
    (h' : colEntry ks t' base current c = some e') :
    e'.p_value = e.p_value := by
  unfold colEntry at h h'
  rcases hb : base.getCol c with _ | d1
  · rw [hb] at h
    simp at h
  rcases hc : current.getCol c with _ | d2
  · rw [hb, hc] at h
    simp at h
  rw [hb, hc] at h h'
  simp only [Option.some_bind, Option.some.injEq] at h h'
  rw [← h, ← h']

/-- Entries accumulated by the drift loop are the per-column computed
entries, provided the initial report's entries already are. -/
theorem driftLoop_mem_colEntry (ks : KSTest) (t : ℚ) (base current : DataFrame) :
    ∀ (cols : List String) (status : Bool)
      (report : List (String × DriftEntry)) (st : Bool)
      (rep : List (String × DriftEntry)),
      driftLoop ks t base current cols status report = .ok (st, rep) →
      (∀ ce ∈ report, colEntry ks t base current ce.1 = some ce.2) →
      ∀ ce ∈ rep, colEntry ks t base current ce.1 = some ce.2 := by
  intro cols
  induction cols with
  | nil =>
    intro status report st rep h hinv
    simp only [driftLoop, Except.ok.injEq, Prod.mk.injEq] at h
    obtain ⟨h1, h2⟩ := h
    subst h1
    subst h2
    exact hinv
  | cons c0 rest ih =>
    intro status report st rep h hinv
    simp only [driftLoop] at h
    split at h
    case h_2 => simp at h
    case h_1 d1 d2 hb hc =>
      have hins : ∀ (v : DriftEntry), v = ⟨ks d1 d2, decide (ks d1 d2 < t)⟩ →
          ∀ ce ∈ dictUpdate report c0 v,
            colEntry ks t base current ce.1 = some ce.2 := by
        intro v hv ce hce
        rcases mem_dictUpdate hce with hmem | hceq
        · exact hinv ce hmem
        · rw [hceq]
          rw [colEntry_eq_some hb hc, hv]
      split at h
      case isTrue hle =>
        refine ih _ _ _ _ h (hins _ ?_)
        have : decide (ks d1 d2 < t) = false := decide_eq_false (not_lt.mpr hle)
        rw [this]
      case isFalse hgt =>
        refine ih _ _ _ _ h (hins _ ?_)
        have : decide (ks d1 d2 < t) = true :=
          decide_eq_true (not_le.mp hgt)
        rw [this]

/-- The key set accumulated by the drift loop: the processed columns plus the
initial report's keys. -/
theorem driftLoop_keys (ks : KSTest) (t : ℚ) (base current : DataFrame) :
    ∀ (cols : List String) (status : Bool)
      (report : List (String × DriftEntry)) (st : Bool)
      (rep : List (String × DriftEntry)),
      driftLoop ks t base current cols status report = .ok (st, rep) →
      ∀ c, c ∈ rep.map Prod.fst ↔ (c ∈ cols ∨ c ∈ report.map Prod.fst) := by
  intro cols
  induction cols with
  | nil =>
    intro status report st rep h c
    simp only [driftLoop, Except.ok.injEq, Prod.mk.injEq] at h
    obtain ⟨h1, h2⟩ := h
    subst h1
    subst h2
    simp
  | cons c0 rest ih =>
    intro status report st rep h c
    simp only [driftLoop] at h
    split at h
    case h_2 => simp at h
    case h_1 d1 d2 hb hc =>
      have step : ∀ (status' : Bool) (v : DriftEntry),
          driftLoop ks t base current rest status'
            (dictUpdate report c0 v) = .ok (st, rep) →
          (c ∈ rep.map Prod.fst ↔
            (c ∈ c0 :: rest ∨ c ∈ report.map Prod.fst)) := by
        intro status' v h'
        rw [ih _ _ _ _ h' c, mem_keys_dictUpdate c, List.mem_cons]
        tauto
      split at h
      case isTrue hle => exact step _ _ h
      case isFalse hgt => exact step _ _ h

/-- The status accumulated by the drift loop: the initial status conjoined
with each processed column's no-drift outcome. -/
theorem driftLoop_status (ks : KSTest) (t : ℚ) (base current : DataFrame) :
    ∀ (cols : List String) (status : Bool)
      (report : List (String × DriftEntry)) (st : Bool)
      (rep : List (String × DriftEntry)),
      driftLoop ks t base current cols status report = .ok (st, rep) →
      st = (status && cols.all (noDriftFlag ks t base current)) := by
  intro cols
  induction cols with
  | nil =>
    intro status report st rep h
    simp only [driftLoop, Except.ok.injEq, Prod.mk.injEq] at h
    obtain ⟨h1, h2⟩ := h
    subst h1
    simp
  | cons c0 rest ih =>
    intro status report st rep h
    simp only [driftLoop] at h
    split at h
    case h_2 => simp at h
    case h_1 d1 d2 hb hc =>
      split at h
      case isTrue hle =>
        have hnd : noDriftFlag ks t base current c0 = true := by
          unfold noDriftFlag
          rw [colEntry_eq_some hb hc,
            decide_eq_false (not_lt.mpr hle)]
          rfl
        rw [List.all_cons, hnd, Bool.true_and]
        exact ih _ _ _ _ h
      case isFalse hgt =>
        have hnd : noDriftFlag ks t base current c0 = false := by
          unfold noDriftFlag
          rw [colEntry_eq_some hb hc,
            decide_eq_true (not_le.mp hgt)]
          rfl
        have hst := ih _ _ _ _ h
        rw [Bool.false_and] at hst
        rw [List.all_cons, hnd, Bool.false_and, Bool.and_false]
        exact hst

/-- A successful drift loop has a computed entry for every processed
column. -/
theorem driftLoop_ok_colEntry (ks : KSTest) (t : ℚ) (base current : DataFrame) :
    ∀ (cols : List String) (status : Bool)
      (report : List (String × DriftEntry)) (st : Bool)
      (rep : List (String × DriftEntry)),
      driftLoop ks t base current cols status report = .ok (st, rep) →
      ∀ c ∈ cols, ∃ e, colEntry ks t base current c = some e := by
  intro cols
  induction cols with
  | nil =>
    intro status report st rep _ c hc
    simp at hc
  | cons c0 rest ih =>
    intro status report st rep h c hc
    simp only [driftLoop] at h
    split at h
    case h_2 => simp at h
    case h_1 d1 d2 hb hc2 =>
      rcases List.mem_cons.mp hc with hceq | hcr
      · subst hceq
        exact ⟨_, colEntry_eq_some hb hc2⟩
      · split at h
        case isTrue hle => exact ih _ _ _ _ h c hcr
        case isFalse hgt => exact ih _ _ _ _ h c hcr

end DataValidation

/-! Theorems settling the specification claims. -/

/-- C1: the spec says `detect_dataset_drift(base, current, threshold)` returns
the pair `(overall_status, report)`, a boolean-carrying value that is never
absent. On a concrete successful call the embedded source function instead
returns Python `None` (the function body has no return statement), even
though its loop did compute the boolean overall status and the report, as the
second conjunct shows. -/
theorem c1_detect_dataset_drift_returns_none :
    (DataValidation.detect_dataset_drift ksSame sampleConfig sampleFs trainDf
        testDf (Rat.divInt 5 100)).toOption.map (fun r => r.2) = some none ∧
    (DataValidation.driftCompute ksSame (Rat.divInt 5 100) trainDf
        testDf).toOption =
      some (false, [("a", ⟨Rat.divInt 1 1000, true⟩), ("b", ⟨1, false⟩)]) := by
  exact ⟨by decide, by decide⟩

/-- C2: the spec says the returned artifact's `validation_status` equals the
drift detector's overall boolean status, with structural check failures
neither aborting the run nor changing the field. On a concrete run whose
column-count check fails (third conjunct) the pipeline still completes and
the drift loop's internal overall status is `true` (second conjunct), yet
the artifact records `none` — the `None` that the return-less
`detect_dataset_drift` handed back — not that boolean. -/
theorem c2_validation_status_is_none_not_drift_status :
    (DataValidation.initiate_data_validation ksSame schemaThree
        sampleIngestion sampleConfig fsIdentical).toOption.map
      (fun r => r.2.validation_status) = some none ∧
    (DataValidation.driftCompute ksSame (Rat.divInt 5 100) trainDf
        trainDf).toOption =
      some (true, [("a", ⟨1, false⟩), ("b", ⟨1, false⟩)]) ∧
    DataValidation.validate_number_of_columns schemaThree trainDf = false := by
  exact ⟨by decide, by decide, by decide⟩

/-- C3: the spec says `validate_numerical_columns` is true iff the schema's
numerical columns are a subset of the dataframe's numeric columns. Because
the source compares the `missing_columns` set with the integer `0`, the
embedded function returns false on every input (first conjunct); in
particular it returns false on a dataframe that does contain every
schema-declared numerical column (second and third conjuncts), where the
claim requires true. -/
theorem c3_validate_numerical_columns_always_false :
    (∀ (schema : SchemaConfig) (df : DataFrame),
      DataValidation.validate_numerical_columns schema df = false) ∧
    sampleSchema.numerical_columns.all
      (fun c => trainDf.numericColumns.contains c) = true ∧
    DataValidation.validate_numerical_columns sampleSchema trainDf = false := by
  exact ⟨fun schema df => rfl, by decide, by decide⟩

/-- C4: the spec says `validate_column_count` is true iff the dataframe's
column count equals the schema's declared total column count, e.g. a schema
declaring 31 columns accepts a 31-column dataset. The source compares
against `len(self._schema_config)` — the number of top-level keys of the
schema mapping — so on the spec-modelled two-key schema declaring 31 columns
it rejects a 31-column dataframe (first two conjuncts) and accepts a
two-column one (last two conjuncts). -/
theorem c4_validate_column_count_uses_schema_len :
    DataValidation.validate_number_of_columns schema31 df31 = false ∧
    df31.columns.length = schema31.total_column_count ∧
    DataValidation.validate_number_of_columns schema31 trainDf = true ∧
    trainDf.columns.length ≠ schema31.total_column_count := by
  exact ⟨by decide, by decide, by decide, by decide⟩

/-- C5: in every drift report produced by the drift computation of
`detect_dataset_drift` with threshold `t`, a column's `drift_status` is true
exactly when its p-value is strictly less than `t` (p-value at least `t`
means no drift), and the overall status is true exactly when no entry of the
report carries a drift flag; moreover `detect_dataset_drift` writes exactly
this report to the configured path. -/
theorem c5_drift_flag_iff_pvalue_below_threshold
    (ks : KSTest) (t : ℚ) (base current : DataFrame) (st : Bool)
    (rep : List (String × DriftEntry))
    (h : DataValidation.driftCompute ks t base current = .ok (st, rep)) :
    (∀ c e, (c, e) ∈ rep → (e.drift_status = true ↔ e.p_value < t)) ∧
    (st = true ↔ ∀ c e, (c, e) ∈ rep → e.drift_status = false) ∧
    (∀ (config : DataValidationConfig) (fs : FileSystem),
      DataValidation.detect_dataset_drift ks config fs base current t =
        .ok (fs.write config.drift_report_file_path (.yaml rep), none)) := by
  have hmem := DataValidation.driftLoop_mem_colEntry ks t base current
    base.columns true [] st rep h (by simp)
  have hst := DataValidation.driftLoop_status ks t base current
    base.columns true [] st rep h
  rw [Bool.true_and] at hst
  have hkeys := DataValidation.driftLoop_keys ks t base current
    base.columns true [] st rep h
  refine ⟨?_, ?_, ?_⟩
  · intro c e hce
    have hc := hmem (c, e) hce
    rw [DataValidation.colEntry_drift_char hc]
    simp
  · constructor
    · intro h1 c e hce
      have hc := hmem (c, e) hce
      have hkc : c ∈ base.columns := by
        have := (hkeys c).mp (List.mem_map.mpr ⟨(c, e), hce, rfl⟩)
        simpa using this
      rw [hst] at h1
      have hnd := List.all_eq_true.mp h1 c hkc
      unfold DataValidation.noDriftFlag at hnd
      rw [hc] at hnd
      simpa using hnd
    · intro hall
      rw [hst]
      refine List.all_eq_true.mpr ?_
      intro c hcin
      have hkc : c ∈ rep.map Prod.fst := (hkeys c).mpr (by simp [hcin])
      obtain ⟨ce, hce, hfst⟩ := List.mem_map.mp hkc
      have hdz : ce.2.drift_status = false := by
        refine hall ce.1 ce.2 ?_
        simpa using hce
      have hc := hmem ce hce
      unfold DataValidation.noDriftFlag
      rw [hfst] at hc
      rw [hc]
      simp [hdz]
  · intro config fs
    unfold DataValidation.detect_dataset_drift
    rw [h]

/-- Witness for C5 at the sample inputs: the entry that the drift
computation produces for column "a" flags drift, and indeed its p-value
1/1000 is below the threshold 5/100. -/
theorem c5_drift_flag_iff_pvalue_below_threshold_witness :
    (DriftEntry.mk (Rat.divInt 1 1000) true).drift_status = true ↔
      (DriftEntry.mk (Rat.divInt 1 1000) true).p_value < Rat.divInt 5 100 :=
  (c5_drift_flag_iff_pvalue_below_threshold ksSame (Rat.divInt 5 100) trainDf
    testDf false [("a", ⟨Rat.divInt 1 1000, true⟩), ("b", ⟨1, false⟩)]
    (by rfl)).1 "a" ⟨Rat.divInt 1 1000, true⟩ (List.mem_cons_self _ _)

/-- C6: the key set of the drift report produced by the drift computation of
`detect_dataset_drift` equals exactly the base dataframe's column-name set —
one entry per base column, no extra keys. -/
theorem c6_report_keys_eq_base_columns
    (ks : KSTest) (t : ℚ) (base current : DataFrame) (st : Bool)
    (rep : List (String × DriftEntry))
    (h : DataValidation.driftCompute ks t base current = .ok (st, rep)) :
    (rep.map Prod.fst).toFinset = base.columns.toFinset := by
  ext c
  have := DataValidation.driftLoop_keys ks t base current base.columns true []
    st rep h c
  simp only [List.mem_toFinset]
  simpa using this

/-- Witness for C6 at the sample inputs: the report computed over the
two-column base frame has exactly the keys "a" and "b". -/
theorem c6_report_keys_eq_base_columns_witness :
    (([("a", (⟨Rat.divInt 1 1000, true⟩ : DriftEntry)),
        ("b", ⟨1, false⟩)].map Prod.fst).toFinset =
      trainDf.columns.toFinset) :=
  c6_report_keys_eq_base_columns ksSame (Rat.divInt 5 100) trainDf testDf
    false [("a", ⟨Rat.divInt 1 1000, true⟩), ("b", ⟨1, false⟩)] (by rfl)

/-- C7: drift flagging is monotone in the threshold: for a fixed pair of
datasets (hence fixed per-column p-values), a column flagged as drifted in
the report at threshold `t` is also flagged in the report at any threshold
`t' ≥ t`. -/
theorem c7_drift_monotone_in_threshold
    (ks : KSTest) (base current : DataFrame) (t t' : ℚ) (ht : t ≤ t')
    (st st' : Bool) (rep rep' : List (String × DriftEntry))
    (h : DataValidation.driftCompute ks t base current = .ok (st, rep))
    (h' : DataValidation.driftCompute ks t' base current = .ok (st', rep'))
    (c : String) (e e' : DriftEntry)
    (hce : (c, e) ∈ rep) (hce' : (c, e') ∈ rep')
    (hdrift : e.drift_status = true) : e'.drift_status = true := by
  have hcol := DataValidation.driftLoop_mem_colEntry ks t base current
    base.columns true [] st rep h (by simp) (c, e) hce
  have hcol' := DataValidation.driftLoop_mem_colEntry ks t' base current
    base.columns true [] st' rep' h' (by simp) (c, e') hce'
  have hpe := DataValidation.colEntry_pvalue_eq hcol hcol'
  have h1 := DataValidation.colEntry_drift_char hcol
  have h2 := DataValidation.colEntry_drift_char hcol'
  rw [h1] at hdrift
  have hlt : e.p_value < t := of_decide_eq_true hdrift
  rw [h2, hpe]
  exact decide_eq_true (lt_of_lt_of_le hlt ht)

/-- Witness for C7 at the sample inputs: column "a", flagged at threshold
5/100, is still flagged at the larger threshold 1/10. -/
theorem c7_drift_monotone_in_threshold_witness :
    (DriftEntry.mk (Rat.divInt 1 1000) true).drift_status = true :=
  c7_drift_monotone_in_threshold ksSame trainDf testDf (Rat.divInt 5 100)
    (Rat.divInt 1 10) (by decide) false false
    [("a", ⟨Rat.divInt 1 1000, true⟩), ("b", ⟨1, false⟩)]
    [("a", ⟨Rat.divInt 1 1000, true⟩), ("b", ⟨1, false⟩)]
    (by rfl) (by rfl) "a" ⟨Rat.divInt 1 1000, true⟩ ⟨Rat.divInt 1 1000, true⟩
    (List.mem_cons_self _ _) (List.mem_cons_self _ _) rfl

/-- Computation shape of `initiate_data_validation`: read train, read test,
run drift detection (the structural checks influence nothing), write the
report and the two unfiltered dataframes, and build the artifact; any
escaping error is re-wrapped. -/
theorem initiate_eq (ks : KSTest) (schema : SchemaConfig)
    (ingestion : DataIngestionArtifact) (config : DataValidationConfig)
    (fs : FileSystem) :
    DataValidation.initiate_data_validation ks schema ingestion config fs =
      match DataValidation.read_data fs ingestion.trained_file_path with
      | .error e => .error (.ofNS e)
      | .ok train =>
        match DataValidation.read_data fs ingestion.test_file_path with
        | .error e => .error (.ofNS e)
        | .ok test =>
          match DataValidation.driftCompute ks (Rat.divInt 5 100) train test
            with
          | .error e => .error (.ofNS (.ofPy e))
          | .ok (_st, rep) =>
            .ok ((((fs.write config.drift_report_file_path (.yaml rep)).write
                config.valid_train_file_path (.csv train)).write
                config.valid_test_file_path (.csv test)),
              { validation_status := none
                valid_train_file_path := some ingestion.trained_file_path
                valid_test_file_path := some ingestion.test_file_path
                invalid_train_file_path := none
                invalid_test_file_path := none
                drift_report_file_path := config.drift_report_file_path }) := by
  rcases hr1 : DataValidation.read_data fs ingestion.trained_file_path with
    e1 | train
  · simp only [DataValidation.initiate_data_validation,
      DataValidation.initiate_body, hr1]
  rcases hr2 : DataValidation.read_data fs ingestion.test_file_path with
    e2 | test
  · simp only [DataValidation.initiate_data_validation,
      DataValidation.initiate_body, hr1, hr2]
  rcases hd : DataValidation.driftCompute ks (Rat.divInt 5 100) train test with
    e3 | ⟨st, rep⟩
  · simp only [DataValidation.initiate_data_validation,
      DataValidation.initiate_body, DataValidation.detect_dataset_drift,
      hr1, hr2, hd]
  · simp only [DataValidation.initiate_data_validation,
      DataValidation.initiate_body, DataValidation.detect_dataset_drift,
      hr1, hr2, hd]

/-- C8: on every successful run of `initiate_data_validation`, the train and
test dataframes, exactly as read, are written unchanged to the configured
"valid" output paths, the artifact's invalid paths are both `None`, and no
path other than the drift report and the two valid outputs is touched — no
execution path writes "invalid" outputs. -/
theorem c8_datasets_persisted_unfiltered
    (ks : KSTest) (schema : SchemaConfig) (ingestion : DataIngestionArtifact)
    (config : DataValidationConfig) (fs fs' : FileSystem)
    (artifact : DataValidationArtifact) (train test : DataFrame)
    (hr1 : DataValidation.read_data fs ingestion.trained_file_path = .ok train)
    (hr2 : DataValidation.read_data fs ingestion.test_file_path = .ok test)
    (hpaths : config.valid_train_file_path ≠ config.valid_test_file_path)
    (h : DataValidation.initiate_data_validation ks schema ingestion config fs
      = .ok (fs', artifact)) :
    fs'.read config.valid_train_file_path = some (.csv train) ∧
    fs'.read config.valid_test_file_path = some (.csv test) ∧
    artifact.invalid_train_file_path = none ∧
    artifact.invalid_test_file_path = none ∧
    ∀ p, p ≠ config.drift_report_file_path →
      p ≠ config.valid_train_file_path → p ≠ config.valid_test_file_path →
      fs'.read p = fs.read p := by
  rcases hd : DataValidation.driftCompute ks (Rat.divInt 5 100) train test
    with e3 | ⟨st, rep⟩
  · simp only [initiate_eq, hr1, hr2, hd] at h
    exact absurd h (by simp)
  simp only [initiate_eq, hr1, hr2, hd, Except.ok.injEq, Prod.mk.injEq] at h
  obtain ⟨hfs, hart⟩ := h
  subst hfs
  subst hart
  refine ⟨?_, ?_, rfl, rfl, ?_⟩
  · rw [read_write_ne _ _ _ _ hpaths, read_write_self]
  · rw [read_write_self]
  · intro p hp1 hp2 hp3
    rw [read_write_ne _ _ _ _ hp3, read_write_ne _ _ _ _ hp2,
      read_write_ne _ _ _ _ hp1]

/-- Witness for C8 at the sample run: the train dataframe is written as-is
to the configured valid path and both invalid paths of the artifact are
absent. -/
theorem c8_datasets_persisted_unfiltered_witness :
    runPair.1.read "valid_train.csv" = some (.csv trainDf) ∧
    runPair.2.invalid_train_file_path = none ∧
    runPair.2.invalid_test_file_path = none := by
  have h := c8_datasets_persisted_unfiltered ksSame sampleSchema
    sampleIngestion sampleConfig sampleFs runPair.1 runPair.2 trainDf testDf
    rfl rfl (by decide) rfl
  exact ⟨h.1, h.2.2.1, h.2.2.2.1⟩

/-- C9: every failure of `initiate_data_validation` is the domain exception
wrapping an inner cause; a failing dataset read aborts the run, surfacing as
the domain exception wrapping the read's own wrapped error; and a successful
run implies both dataset reads succeeded — no artifact is produced on
failure. -/
theorem c9_errors_wrapped_and_abort
    (ks : KSTest) (schema : SchemaConfig) (ingestion : DataIngestionArtifact)
    (config : DataValidationConfig) (fs : FileSystem) :
    (∀ e, DataValidation.initiate_data_validation ks schema ingestion config fs
        = .error e → ∃ e0, e = .ofNS e0) ∧
    (∀ e0, DataValidation.read_data fs ingestion.trained_file_path = .error e0 →
      DataValidation.initiate_data_validation ks schema ingestion config fs
        = .error (.ofNS e0)) ∧
    (∀ fs' a, DataValidation.initiate_data_validation ks schema ingestion
        config fs = .ok (fs', a) →
      (∃ train, DataValidation.read_data fs ingestion.trained_file_path
          = .ok train) ∧
      (∃ test, DataValidation.read_data fs ingestion.test_file_path
          = .ok test)) := by
  rcases hr1 : DataValidation.read_data fs ingestion.trained_file_path with
    e1 | train
  · have hinit : DataValidation.initiate_data_validation ks schema ingestion
        config fs = .error (.ofNS e1) := by
      rw [initiate_eq, hr1]
    refine ⟨?_, ?_, ?_⟩
    · intro e he
      rw [hinit] at he
      injection he with h0
      exact ⟨e1, h0.symm⟩
    · intro e0 he0
      injection he0 with h0
      rw [hinit, h0]
    · intro fs' a ha
      rw [hinit] at ha
      exact absurd ha (by simp)
  rcases hr2 : DataValidation.read_data fs ingestion.test_file_path with
    e2 | test
  · have hinit : DataValidation.initiate_data_validation ks schema ingestion
        config fs = .error (.ofNS e2) := by
      rw [initiate_eq, hr1, hr2]
    refine ⟨?_, ?_, ?_⟩
    · intro e he
      rw [hinit] at he
      injection he with h0
      exact ⟨e2, h0.symm⟩
    · intro e0 he0
      exact absurd he0 (by simp)
    · intro fs' a ha
      rw [hinit] at ha
      exact absurd ha (by simp)
  rcases hd : DataValidation.driftCompute ks (Rat.divInt 5 100) train test
    with e3 | ⟨st, rep⟩
  · have hinit : DataValidation.initiate_data_validation ks schema ingestion
        config fs = .error (.ofNS (.ofPy e3)) := by
      simp only [initiate_eq, hr1, hr2, hd]
    refine ⟨?_, ?_, ?_⟩
    · intro e he
      rw [hinit] at he
      injection he with h0
      exact ⟨.ofPy e3, h0.symm⟩
    · intro e0 he0
      exact absurd he0 (by simp)
    · intro fs' a ha
      rw [hinit] at ha
      exact absurd ha (by simp)
  · have hinit : DataValidation.initiate_data_validation ks schema ingestion
        config fs =
        .ok ((((fs.write config.drift_report_file_path (.yaml rep)).write
            config.valid_train_file_path (.csv train)).write
            config.valid_test_file_path (.csv test)),
          { validation_status := none
            valid_train_file_path := some ingestion.trained_file_path
            valid_test_file_path := some ingestion.test_file_path
            invalid_train_file_path := none
            invalid_test_file_path := none
            drift_report_file_path := config.drift_report_file_path }) := by
      simp only [initiate_eq, hr1, hr2, hd]
    refine ⟨?_, ?_, ?_⟩
    · intro e he
      rw [hinit] at he
      exact absurd he (by simp)
    · intro e0 he0
      exact absurd he0 (by simp)
    · intro fs' a _
      exact ⟨⟨train, rfl⟩, ⟨test, rfl⟩⟩

/-- Witness for C9: with an empty file system the train read fails, and the
whole call aborts with the domain exception wrapping the read's error. -/
theorem c9_errors_wrapped_and_abort_witness :
    DataValidation.initiate_data_validation ksSame sampleSchema
      sampleIngestion sampleConfig ⟨[]⟩ =
      .error (.ofNS (.ofPy (.fileNotFound "in_train.csv"))) :=
  (c9_errors_wrapped_and_abort ksSame sampleSchema sampleIngestion
    sampleConfig ⟨[]⟩).2.1 (.ofPy (.fileNotFound "in_train.csv")) rfl

/-- C10: on every successful run, the artifact's `valid_train_file_path` and
`valid_test_file_path` are the ingestion artifact's input paths — not the
configured valid output paths the CSV copies were actually written to,
whenever those differ. -/
theorem c10_artifact_paths_are_ingestion_inputs
    (ks : KSTest) (schema : SchemaConfig) (ingestion : DataIngestionArtifact)
    (config : DataValidationConfig) (fs fs' : FileSystem)
    (artifact : DataValidationArtifact)
    (h : DataValidation.initiate_data_validation ks schema ingestion config fs
      = .ok (fs', artifact)) :
    artifact.valid_train_file_path = some ingestion.trained_file_path ∧
    artifact.valid_test_file_path = some ingestion.test_file_path ∧
    (ingestion.trained_file_path ≠ config.valid_train_file_path →
      artifact.valid_train_file_path ≠ some config.valid_train_file_path) ∧
    (ingestion.test_file_path ≠ config.valid_test_file_path →
      artifact.valid_test_file_path ≠ some config.valid_test_file_path) := by
  rcases hr1 : DataValidation.read_data fs ingestion.trained_file_path with
    e1 | train
  · simp only [initiate_eq, hr1] at h
    exact absurd h (by simp)
  rcases hr2 : DataValidation.read_data fs ingestion.test_file_path with
    e2 | test
  · simp only [initiate_eq, hr1, hr2] at h
    exact absurd h (by simp)
  rcases hd : DataValidation.driftCompute ks (Rat.divInt 5 100) train test
    with e3 | ⟨st, rep⟩
  · simp only [initiate_eq, hr1, hr2, hd] at h
    exact absurd h (by simp)
  simp only [initiate_eq, hr1, hr2, hd, Except.ok.injEq, Prod.mk.injEq] at h
  obtain ⟨_, hart⟩ := h
  subst hart
  refine ⟨rfl, rfl, ?_, ?_⟩
  · intro hne hcontra
    exact hne (by simpa using hcontra)
  · intro hne hcontra
    exact hne (by simpa using hcontra)

/-- Witness for C10 at the sample run: the artifact echoes the ingestion
input paths. -/
theorem c10_artifact_paths_are_ingestion_inputs_witness :
    runPair.2.valid_train_file_path = some "in_train.csv" ∧
    runPair.2.valid_test_file_path = some "in_test.csv" := by
  have h := c10_artifact_paths_are_ingestion_inputs ksSame sampleSchema
    sampleIngestion sampleConfig sampleFs runPair.1 runPair.2 rfl
  exact ⟨h.1, h.2.1⟩

end NetworkSecurity
